import Mathlib

/-!
Formal model of the PWR (power configuration) module of an STM32H7 HAL
(`src/pwr.rs`).

The module drives the core-voltage supply subsystem: a builder (`Pwr`)
accumulates a desired supply configuration, target voltage scale and a
backup-regulator request, and `freeze` commits the configuration to the
hardware registers, polling status flags between steps.

The embedding makes the compile-time feature axes of the crate explicit as a
`Variant` value (reference-manual family, presence of the integrated SMPS
converter, and the `revision_v` gate), models the memory-mapped registers as
an explicit `Regs` state threaded through each step, and records every
register write and poll in a trace of `Event`s.  Busy-wait loops are modelled
as single checks of the polled bit: when the bit is set the loop exits after
one iteration, when it is clear the (timeout-free) loop never exits, which
the model reports as the `blocked` outcome.  A `panic!`/failed `assert!` is
reported as the `panic` outcome together with the register state and trace at
the point of failure.

The lower byte of PWR.CR3 is write-once per power-on-reset, enforced by
hardware (noted in the source comments, RM0433 Rev 7 6.8.4).  The model keeps
a `cr3_locked` latch in the register state: when set, writes to the lower
byte of CR3 are silently dropped, which is how a readback can differ from
what `freeze` wrote.
-/

/-- Hardware reference-manual family, selected at build time by the cargo
features `rm0433` / `rm0399` / `rm0455` / `rm0468` (mutually exclusive). -/
inductive Family
  | RM0433
  | RM0399
  | RM0455
  | RM0468
deriving DecidableEq

/-- Resolved build-time configuration of the crate: the family feature, the
`smps` feature (integrated switched-mode converter present) and the
`revision_v` feature (revision gate enabling the VOS0 path). -/
structure Variant where
  family : Family
  smps : Bool
  revision_v : Bool
deriving DecidableEq

/-- The crate refuses to build with `feature = "smps"` on RM0433 parts
(`compile_error!` in `src/pwr.rs`).  A variant is well formed when it does
not combine the two. -/
def Variant.wf (v : Variant) : Prop := v.family = Family.RM0433 → v.smps = false

/-- Voltage scale (`enum VoltageScale`): Scale0 is the highest performance
tier, Scale3 the lowest. -/
inductive VoltageScale
  | Scale0
  | Scale1
  | Scale2
  | Scale3
deriving DecidableEq

/-- SMPS supply configuration (`enum SupplyConfiguration`), present on
converter-integrated parts.  `Default` is the unconfigured state. -/
inductive SupplyConfiguration
  | Default
  | LDOSupply
  | DirectSMPS
  | SMPSFeedsIntoLDO1V8
  | SMPSFeedsIntoLDO2V5
  | Bypass
deriving DecidableEq

/-- Backup-domain regulator handle (`BackupREC`), an opaque resource
constructed by `BackupREC::new_singleton(backup_regulator_enabled)`. -/
structure BackupREC where
  regulator_enabled : Bool
deriving DecidableEq

/-- Model of `BackupREC::new_singleton`. -/
def BackupREC.new_singleton (regulator_enabled : Bool) : BackupREC :=
  { regulator_enabled := regulator_enabled }

/-- Result of a successful `freeze` (`struct PowerConfiguration`): the
achieved voltage scale and the (at most once takeable) backup handle. -/
structure PowerConfiguration where
  vos : VoltageScale
  backup : Option BackupREC
deriving DecidableEq

/-- Model of `PowerConfiguration::backup`, which is `self.backup.take()`
in the source: it returns the stored handle (if any) and leaves `none`
behind.  `&mut self` is modelled by also returning the updated value.
(The source method is named `backup`, which in Lean collides with the field
projection, hence the name `take_backup`.) -/
def PowerConfiguration.take_backup (c : PowerConfiguration) :
    Option BackupREC × PowerConfiguration :=
  (c.backup, { c with backup := none })

/-- The constrained PWR builder (`struct Pwr`).  The raw register block
`rb` is threaded separately as a `Regs` value.  The `supply_configuration`
field only exists under `feature = "smps"` in the source; here it is always
present and only consulted when the variant has the feature. -/
structure Pwr where
  supply_configuration : SupplyConfiguration
  target_vos : VoltageScale
  backup_regulator : Bool
deriving DecidableEq

/-- Model of `PwrExt::constrain` (`src/pwr.rs` lines 97-107): default supply
configuration, target scale 1, backup regulator disabled. -/
def constrain : Pwr :=
  { supply_configuration := SupplyConfiguration.Default
    target_vos := VoltageScale.Scale1
    backup_regulator := false }

/-- Builder method `ldo`. -/
def Pwr.ldo (p : Pwr) : Pwr :=
  { p with supply_configuration := SupplyConfiguration.LDOSupply }

/-- Builder method `smps`. -/
def Pwr.smps (p : Pwr) : Pwr :=
  { p with supply_configuration := SupplyConfiguration.DirectSMPS }

/-- Builder method `bypass`. -/
def Pwr.bypass (p : Pwr) : Pwr :=
  { p with supply_configuration := SupplyConfiguration.Bypass }

/-- Builder method `smps_1v8_feeds_ldo`. -/
def Pwr.smps_1v8_feeds_ldo (p : Pwr) : Pwr :=
  { p with supply_configuration := SupplyConfiguration.SMPSFeedsIntoLDO1V8 }

/-- Builder method `smps_2v5_feeds_ldo`. -/
def Pwr.smps_2v5_feeds_ldo (p : Pwr) : Pwr :=
  { p with supply_configuration := SupplyConfiguration.SMPSFeedsIntoLDO2V5 }

/-- Builder method `vos0` (only available with `revision_v` on
RM0433/RM0399/RM0468; the `SYSCFG` token argument is erased here). -/
def Pwr.vos0 (p : Pwr) : Pwr := { p with target_vos := VoltageScale.Scale0 }

/-- Builder method `vos1`. -/
def Pwr.vos1 (p : Pwr) : Pwr := { p with target_vos := VoltageScale.Scale1 }

/-- Builder method `vos2`. -/
def Pwr.vos2 (p : Pwr) : Pwr := { p with target_vos := VoltageScale.Scale2 }

/-- Builder method `vos3`. -/
def Pwr.vos3 (p : Pwr) : Pwr := { p with target_vos := VoltageScale.Scale3 }

/-- Builder method `backup_regulator` (renamed: the source method shares its
name with the field it sets). -/
def Pwr.enable_backup_regulator (p : Pwr) : Pwr :=
  { p with backup_regulator := true }

/-- The memory-mapped register state visible to `src/pwr.rs`.

Writable configuration fields are updated by writes; the ready/status bits
(`d3cr_vosrdy`, `csr1_actvosrdy`, `csr1_actvos`, `cr2_brrdy`) are read-only
to software and driven by hardware, so no operation of the model changes
them.  `cr3_locked` models the hardware write-once latch on the lower byte
of CR3: while set, writes to those fields are dropped.

On RM0455 the register/field names differ (`SRDCR` for `D3CR`, `smpsen` /
`smpslevel` for `sden` / `sdlevel`) but the fields play the same roles; one
set of names is used for all families. -/
structure Regs where
  cr3_locked : Bool
  cr3_sden : Bool
  cr3_ldoen : Bool
  cr3_bypass : Bool
  cr3_sdlevel : Nat
  cr3_scuen : Bool
  d3cr_vos : Nat
  d3cr_vosrdy : Bool
  csr1_actvosrdy : Bool
  csr1_actvos : Nat
  cr1_dbp : Bool
  cr2_bren : Bool
  cr2_brrdy : Bool
  rcc_syscfgen : Bool
  syscfg_oden : Bool
deriving DecidableEq

/-- One observable hardware interaction of the commit sequence.  Write
events record the value presented on the bus; poll events record one
evaluation of a busy-wait condition. -/
inductive Event
  | readCR3
  | writeCR3 (sden ldoen bypass : Bool) (sdlevel : Nat) (scuen : Bool)
  | pollActvosrdy
  | writeVOS (bits : Nat)
  | pollVosrdy
  | writeSYSCFGEN
  | writeODEN
  | pollActvosEq
  | writeDBP
  | pollDBP
  | writeBREN
  | pollBRRDY
deriving DecidableEq

/-- Why `freeze` panicked: a supply-configuration readback mismatch
(failed `assert!` in `verify_supply_configuration`) or the
`unimplemented!()` arm of the tier-to-bitpattern match in
`voltage_scaling_transition`. -/
inductive PanicKind
  | supplyMismatch
  | unimplementedVos
deriving DecidableEq

/-- Status of an individual commit step. -/
inductive StepStatus
  | ok
  | panicked (k : PanicKind)
  | blocked
deriving DecidableEq

/-- Outcome of `freeze`: a result, a panic, or an unbounded busy-wait that
never exits (`blocked`).  Every constructor carries the register state and
the trace accumulated up to that point. -/
inductive Outcome
  | ok (cfg : PowerConfiguration) (r : Regs) (t : List Event)
  | panic (k : PanicKind) (r : Regs) (t : List Event)
  | blocked (r : Regs) (t : List Event)
deriving DecidableEq

/-- True exactly on the `ok` outcome. -/
def Outcome.isOk : Outcome → Bool
  | Outcome.ok _ _ _ => true
  | _ => false

/-- True exactly on the `blocked` outcome. -/
def Outcome.isBlocked : Outcome → Bool
  | Outcome.blocked _ _ => true
  | _ => false

/-- True exactly on a supply-mismatch panic. -/
def Outcome.isMismatchPanic : Outcome → Bool
  | Outcome.panic PanicKind.supplyMismatch _ _ => true
  | _ => false

/-- True exactly on an `unimplemented!()` panic of the VOS match. -/
def Outcome.isUnimplPanic : Outcome → Bool
  | Outcome.panic PanicKind.unimplementedVos _ _ => true
  | _ => false

/-- The achieved voltage scale of a successful outcome. -/
def Outcome.cfgVos : Outcome → Option VoltageScale
  | Outcome.ok cfg _ _ => some cfg.vos
  | _ => none

/-- The `PowerConfiguration` of a successful outcome. -/
def Outcome.cfgOut : Outcome → Option PowerConfiguration
  | Outcome.ok cfg _ _ => some cfg
  | _ => none

/-- The register state carried by an outcome. -/
def Outcome.regsOut : Outcome → Regs
  | Outcome.ok _ r _ => r
  | Outcome.panic _ r _ => r
  | Outcome.blocked r _ => r

/-- The event trace carried by an outcome. -/
def Outcome.traceOut : Outcome → List Event
  | Outcome.ok _ _ t => t
  | Outcome.panic _ _ t => t
  | Outcome.blocked _ t => t

/-- A write to the lower byte of CR3.  The hardware enforces write-once per
POR: while `cr3_locked` is set the write is dropped and the previously
latched values remain. -/
def writeCR3Lower (r : Regs) (sden ldoen bypass : Bool) (sdlevel : Nat)
    (scuen : Bool) : Regs :=
  if r.cr3_locked then r
  else
    { r with
      cr3_sden := sden
      cr3_ldoen := ldoen
      cr3_bypass := bypass
      cr3_sdlevel := sdlevel
      cr3_scuen := scuen }

/-- Step 1 of `freeze` (`src/pwr.rs` lines 400-434): the read-modify-write
of CR3.

Without the `smps` feature: unconditionally set `scuen` and `ldoen` and
clear `bypass`.  With the `smps` feature: set the enable/level bits for the
selected `SupplyConfiguration`; the `Default` arm returns the writer
unchanged, so the read values are written back.  In every case the
`modify` call reads CR3 and then writes it, which the trace records as a
`readCR3` followed by a `writeCR3` carrying the value presented on the
bus. -/
def step1cr3 (v : Variant) (p : Pwr) (r : Regs) : Regs × List Event :=
  if v.smps = false then
    (writeCR3Lower r r.cr3_sden true false r.cr3_sdlevel true,
     [Event.readCR3, Event.writeCR3 r.cr3_sden true false r.cr3_sdlevel true])
  else
    match p.supply_configuration with
    | SupplyConfiguration.Default =>
        (writeCR3Lower r r.cr3_sden r.cr3_ldoen r.cr3_bypass r.cr3_sdlevel
          r.cr3_scuen,
         [Event.readCR3,
          Event.writeCR3 r.cr3_sden r.cr3_ldoen r.cr3_bypass r.cr3_sdlevel
            r.cr3_scuen])
    | SupplyConfiguration.LDOSupply =>
        (writeCR3Lower r false true r.cr3_bypass r.cr3_sdlevel r.cr3_scuen,
         [Event.readCR3,
          Event.writeCR3 false true r.cr3_bypass r.cr3_sdlevel r.cr3_scuen])
    | SupplyConfiguration.DirectSMPS =>
        (writeCR3Lower r true false r.cr3_bypass r.cr3_sdlevel r.cr3_scuen,
         [Event.readCR3,
          Event.writeCR3 true false r.cr3_bypass r.cr3_sdlevel r.cr3_scuen])
    | SupplyConfiguration.SMPSFeedsIntoLDO1V8 =>
        (writeCR3Lower r true true r.cr3_bypass 1 r.cr3_scuen,
         [Event.readCR3, Event.writeCR3 true true r.cr3_bypass 1 r.cr3_scuen])
    | SupplyConfiguration.SMPSFeedsIntoLDO2V5 =>
        (writeCR3Lower r true true r.cr3_bypass 2 r.cr3_scuen,
         [Event.readCR3, Event.writeCR3 true true r.cr3_bypass 2 r.cr3_scuen])
    | SupplyConfiguration.Bypass =>
        (writeCR3Lower r false false true r.cr3_sdlevel r.cr3_scuen,
         [Event.readCR3,
          Event.writeCR3 false false true r.cr3_sdlevel r.cr3_scuen])

/-- Model of `Pwr::verify_supply_configuration` (`src/pwr.rs` lines
227-276), transcribed assertion by assertion: `true` when every `assert!`
of the arm for the given selection passes on the given readback state.
Note the source asserts `ldoen().bit_is_clear()` for both
`SMPSFeedsIntoLDO1V8` and `SMPSFeedsIntoLDO2V5`, and the `Default` arm
checks nothing. -/
def verify_supply_configuration (sc : SupplyConfiguration) (r : Regs) : Bool :=
  match sc with
  | SupplyConfiguration.LDOSupply => !r.cr3_sden && r.cr3_ldoen
  | SupplyConfiguration.DirectSMPS => r.cr3_sden && !r.cr3_ldoen
  | SupplyConfiguration.SMPSFeedsIntoLDO1V8 =>
      r.cr3_sden && !r.cr3_ldoen && (r.cr3_sdlevel == 1)
  | SupplyConfiguration.SMPSFeedsIntoLDO2V5 =>
      r.cr3_sden && !r.cr3_ldoen && (r.cr3_sdlevel == 2)
  | SupplyConfiguration.Bypass =>
      !r.cr3_sden && !r.cr3_ldoen && r.cr3_bypass
  | SupplyConfiguration.Default => true

/-- The tier-to-bitpattern tables of `voltage_scaling_transition`
(`src/pwr.rs` lines 285-309), one per family; `none` is the
`unimplemented!()` arm (Scale0 on RM0433/RM0399). -/
def vosBits : Family → VoltageScale → Option Nat
  | Family.RM0433, VoltageScale.Scale3 => some 1
  | Family.RM0433, VoltageScale.Scale2 => some 2
  | Family.RM0433, VoltageScale.Scale1 => some 3
  | Family.RM0433, VoltageScale.Scale0 => none
  | Family.RM0399, VoltageScale.Scale3 => some 1
  | Family.RM0399, VoltageScale.Scale2 => some 2
  | Family.RM0399, VoltageScale.Scale1 => some 3
  | Family.RM0399, VoltageScale.Scale0 => none
  | Family.RM0455, VoltageScale.Scale3 => some 0
  | Family.RM0455, VoltageScale.Scale2 => some 1
  | Family.RM0455, VoltageScale.Scale1 => some 2
  | Family.RM0455, VoltageScale.Scale0 => some 3
  | Family.RM0468, VoltageScale.Scale0 => some 0
  | Family.RM0468, VoltageScale.Scale3 => some 1
  | Family.RM0468, VoltageScale.Scale2 => some 2
  | Family.RM0468, VoltageScale.Scale1 => some 3

/-- Model of `Pwr::voltage_scaling_transition` (`src/pwr.rs` lines
282-313): write the encoding of the new scale to the VOS field of
D3CR/SRDCR, then busy-wait on VOSRDY.  The `unimplemented!()` arm panics
inside the write closure, before any write happens. -/
def voltage_scaling_transition (v : Variant) (r : Regs)
    (new_scale : VoltageScale) : StepStatus × Regs × List Event :=
  match vosBits v.family new_scale with
  | none => (StepStatus.panicked PanicKind.unimplementedVos, r, [])
  | some b =>
      let r1 : Regs := { r with d3cr_vos := b }
      if r1.d3cr_vosrdy = false then
        (StepStatus.blocked, r1, [Event.writeVOS b, Event.pollVosrdy])
      else
        (StepStatus.ok, r1, [Event.writeVOS b, Event.pollVosrdy])

/-- The overdrive path exists on RM0433/RM0399 with `revision_v`
(`#[cfg(all(feature = "revision_v", any(feature = "rm0433", feature =
"rm0399")))]`). -/
def odPath (v : Variant) : Bool :=
  v.revision_v &&
    (match v.family with
     | Family.RM0433 => true
     | Family.RM0399 => true
     | _ => false)

/-- The second-transition path exists on RM0468 with `revision_v`
(`#[cfg(all(feature = "revision_v", feature = "rm0468"))]`). -/
def sndPath (v : Variant) : Bool :=
  v.revision_v &&
    (match v.family with
     | Family.RM0468 => true
     | _ => false)

/-- `matches!(self.target_vos, VoltageScale::Scale0)`. -/
def isScale0 : VoltageScale → Bool
  | VoltageScale.Scale0 => true
  | _ => false

/-- The intermediate mapping of `freeze` (`src/pwr.rs` lines 452-455):
VOS0 cannot be entered directly, so a Scale0 target first transitions to
Scale1. -/
def interVos : VoltageScale → VoltageScale
  | VoltageScale.Scale0 => VoltageScale.Scale1
  | x => x

/-- Steps 6-8 of `freeze` (`src/pwr.rs` lines 493-507): set CR1.DBP and
poll it, then, if the builder requested the backup regulator, set CR2.BREN
and poll CR2.BRRDY, and finally construct the `PowerConfiguration` with
the achieved scale and a fresh backup handle. -/
def backup_stage (p : Pwr) (vos : VoltageScale) (r : Regs) (t : List Event) :
    Outcome :=
  let r1 : Regs := { r with cr1_dbp := true }
  let t1 := t ++ [Event.writeDBP]
  if r1.cr1_dbp = false then Outcome.blocked r1 (t1 ++ [Event.pollDBP])
  else
    let t2 := t1 ++ [Event.pollDBP]
    if p.backup_regulator then
      let r2 : Regs := { r1 with cr2_bren := true }
      let t3 := t2 ++ [Event.writeBREN]
      if r2.cr2_brrdy = false then
        Outcome.blocked r2 (t3 ++ [Event.pollBRRDY])
      else
        Outcome.ok
          { vos := vos
            backup := some (BackupREC.new_singleton p.backup_regulator) }
          r2 (t3 ++ [Event.pollBRRDY])
    else
      Outcome.ok
        { vos := vos
          backup := some (BackupREC.new_singleton p.backup_regulator) }
        r1 t2

/-- Model of `Pwr::freeze` (`src/pwr.rs` lines 393-508), step by step:

1. read-modify-write CR3 (`step1cr3`);
2. with the `smps` feature, `verify_supply_configuration`, panicking on a
   mismatch;
3. busy-wait on CSR1.ACTVOSRDY;
4. transition to the target scale, a Scale0 target being first mapped to
   Scale1 (`interVos`);
5. on RM0433/RM0399 with `revision_v` and a Scale0 target: enable SYSCFG
   clock, set the overdrive-enable bit, re-poll VOSRDY; on RM0468 with
   `revision_v` and a Scale0 target: re-issue the transition to Scale0,
   then poll D3CR.VOS = CSR1.ACTVOS and CSR1.ACTVOSRDY;
6. unlock the backup domain, optionally enable the backup regulator, and
   build the result (`backup_stage`). -/
def freeze (v : Variant) (p : Pwr) (r0 : Regs) : Outcome :=
  let s1 := step1cr3 v p r0
  let r1 := s1.1
  let t1 := s1.2
  if v.smps && !(verify_supply_configuration p.supply_configuration r1) then
    Outcome.panic PanicKind.supplyMismatch r1 t1
  else if r1.csr1_actvosrdy = false then
    Outcome.blocked r1 (t1 ++ [Event.pollActvosrdy])
  else
    let t2 := t1 ++ [Event.pollActvosrdy]
    let vos1 := interVos p.target_vos
    match voltage_scaling_transition v r1 vos1 with
    | (StepStatus.panicked k, r2, tv) => Outcome.panic k r2 (t2 ++ tv)
    | (StepStatus.blocked, r2, tv) => Outcome.blocked r2 (t2 ++ tv)
    | (StepStatus.ok, r2, tv) =>
      let t3 := t2 ++ tv
      if odPath v && isScale0 p.target_vos then
        let r3 : Regs := { r2 with rcc_syscfgen := true }
        let r4 : Regs := { r3 with syscfg_oden := true }
        let t4 := t3 ++ [Event.writeSYSCFGEN, Event.writeODEN]
        if r4.d3cr_vosrdy = false then
          Outcome.blocked r4 (t4 ++ [Event.pollVosrdy])
        else backup_stage p VoltageScale.Scale0 r4 (t4 ++ [Event.pollVosrdy])
      else if sndPath v && isScale0 p.target_vos then
        match voltage_scaling_transition v r2 VoltageScale.Scale0 with
        | (StepStatus.panicked k, r3, tv2) => Outcome.panic k r3 (t3 ++ tv2)
        | (StepStatus.blocked, r3, tv2) => Outcome.blocked r3 (t3 ++ tv2)
        | (StepStatus.ok, r3, tv2) =>
          let t5 := t3 ++ tv2
          if r3.d3cr_vos = r3.csr1_actvos then
            if r3.csr1_actvosrdy = false then
              Outcome.blocked r3
                (t5 ++ [Event.pollActvosEq, Event.pollActvosrdy])
            else
              backup_stage p VoltageScale.Scale0 r3
                (t5 ++ [Event.pollActvosEq, Event.pollActvosrdy])
          else Outcome.blocked r3 (t5 ++ [Event.pollActvosEq])
      else backup_stage p vos1 r2 t3

/-- The voltage scale a completed `freeze` reports: Scale0 when the
overdrive / second-transition path ran, otherwise the directly written
tier. -/
def finalVos (v : Variant) (p : Pwr) : VoltageScale :=
  if (odPath v || sndPath v) && isScale0 p.target_vos then VoltageScale.Scale0
  else interVos p.target_vos

/-- A target scale is legal for a variant when Scale0 is only requested
where the builder offers `vos0`: with `revision_v` on a family other than
RM0455. -/
abbrev LegalTarget (v : Variant) (s : VoltageScale) : Prop :=
  s = VoltageScale.Scale0 →
    (v.revision_v = true ∧ v.family ≠ Family.RM0455)

/-- Hardware readiness: every status bit polled by `freeze` is set, and on
the RM0468 Scale0 path the achieved-scale field already shows the Scale0
encoding. -/
abbrev hwReady (v : Variant) (p : Pwr) (r : Regs) : Prop :=
  r.d3cr_vosrdy = true ∧ r.csr1_actvosrdy = true ∧ r.cr2_brrdy = true ∧
    (sndPath v = true → p.target_vos = VoltageScale.Scale0 →
      r.csr1_actvos = 0)

/-- Readiness of the two status bits polled on a default (`constrain`)
freeze. -/
abbrev pollsReady (r : Regs) : Prop :=
  r.d3cr_vosrdy = true ∧ r.csr1_actvosrdy = true

/-- A fuelled rendering of a busy-wait loop `while bit clear {}` on a
status bit that does not change between iterations: the returned number is
how many times the condition was evaluated before the loop exited. -/
def busy_wait : Nat → Bool → Option Nat
  | 0, _ => none
  | n + 1, bit => if bit then some 1 else Option.map (fun k => k + 1) (busy_wait n bit)

/-- Trace predicate: a VOS-field write of the given encoding. -/
def isVosWrite (b : Nat) : Event → Bool
  | Event.writeVOS x => x == b
  | _ => false

/-- Trace predicate: the overdrive-enable write. -/
def isOdenWrite : Event → Bool
  | Event.writeODEN => true
  | _ => false

/-- Trace predicate: any VOS-field write. -/
def isAnyVosWrite : Event → Bool
  | Event.writeVOS _ => true
  | _ => false

/-- Trace predicate: a CR3 bus access (the read or the write of the
read-modify-write). -/
def isCR3Access : Event → Bool
  | Event.readCR3 => true
  | Event.writeCR3 _ _ _ _ _ => true
  | _ => false

/-- Trace predicate: the CR1.DBP write. -/
def isWriteDBP : Event → Bool
  | Event.writeDBP => true
  | _ => false

/-- Trace predicate: the CR2.BREN write. -/
def isWriteBREN : Event → Bool
  | Event.writeBREN => true
  | _ => false

/-- Trace predicate: one poll of CR2.BRRDY. -/
def isPollBRRDY : Event → Bool
  | Event.pollBRRDY => true
  | _ => false

/-- Trace predicate: a write of the Scale0 encoding of the given family
(no such write exists on RM0433/RM0399, whose table has no Scale0
entry). -/
def scale0VosWrite (f : Family) (e : Event) : Bool :=
  match vosBits f VoltageScale.Scale0 with
  | some b => isVosWrite b e
  | none => false

/-- The register write that finally reaches Scale0: the overdrive-enable
write on RM0433/RM0399, the second VOS write (Scale0 encoding) on
RM0468. -/
def scale0_step (f : Family) : Event :=
  match f with
  | Family.RM0468 => Event.writeVOS 0
  | _ => Event.writeODEN

/-- Predicate on the combined backup-stage trace suffix: the events
appended by `backup_stage`. -/
def backupSuffix (br : Bool) : List Event :=
  if br then
    [Event.writeDBP, Event.pollDBP, Event.writeBREN, Event.pollBRRDY]
  else [Event.writeDBP, Event.pollDBP]

/-- The register state after `backup_stage` completes. -/
def backupRegs (br : Bool) (r : Regs) : Regs :=
  if br then { r with cr1_dbp := true, cr2_bren := true }
  else { r with cr1_dbp := true }

/-- Trace predicate: an event belonging to the backup stage. -/
def noBackupEvt (e : Event) : Bool :=
  !isWriteDBP e && !isWriteBREN e && !isPollBRRDY e

/-- A register file in its unlocked reset-like state with every hardware
status flag set: readbacks faithfully reflect writes and every poll
completes. -/
def regsReady : Regs :=
  { cr3_locked := false
    cr3_sden := false
    cr3_ldoen := false
    cr3_bypass := false
    cr3_sdlevel := 0
    cr3_scuen := false
    d3cr_vos := 3
    d3cr_vosrdy := true
    csr1_actvosrdy := true
    csr1_actvos := 0
    cr1_dbp := false
    cr2_bren := false
    cr2_brrdy := true
    rcc_syscfgen := false
    syscfg_oden := false }

/-- A register file whose CR3 lower byte was latched by a previous power
cycle to SDEN=1, LDOEN=0, SDLEVEL=1 and is locked, so step-1 writes are
dropped; all status flags are set. -/
def regsLockedMismatch : Regs :=
  { cr3_locked := true
    cr3_sden := true
    cr3_ldoen := false
    cr3_bypass := false
    cr3_sdlevel := 1
    cr3_scuen := false
    d3cr_vos := 3
    d3cr_vosrdy := true
    csr1_actvosrdy := true
    csr1_actvos := 0
    cr1_dbp := false
    cr2_bren := false
    cr2_brrdy := true
    rcc_syscfgen := false
    syscfg_oden := false }

/-- A dual-core RM0399 part with the SMPS converter and `revision_v`. -/
def variantRM0399smps : Variant :=
  { family := Family.RM0399, smps := true, revision_v := true }

/-- An RM0433 part (no SMPS feature) with `revision_v`. -/
def variantRM0433 : Variant :=
  { family := Family.RM0433, smps := false, revision_v := true }

/-- An RM0468 part with the SMPS converter and `revision_v`. -/
def variantRM0468smps : Variant :=
  { family := Family.RM0468, smps := true, revision_v := true }

/-- A builder requesting the SMPS-feeds-LDO-at-1.8V supply. -/
def pwrFeeds1V8 : Pwr := constrain.smps_1v8_feeds_ldo

/-- A builder requesting Scale0. -/
def pwrVos0 : Pwr := constrain.vos0

/-- A builder requesting the backup regulator. -/
def pwrBackup : Pwr := constrain.enable_backup_regulator


/-- A CR3 lower-byte write never changes the VOS field of D3CR. -/
@[simp] theorem writeCR3Lower_d3cr_vos (r : Regs) (a b c : Bool) (d : Nat)
    (e : Bool) : (writeCR3Lower r a b c d e).d3cr_vos = r.d3cr_vos := by
  unfold writeCR3Lower; split <;> rfl

/-- A CR3 lower-byte write never changes VOSRDY. -/
@[simp] theorem writeCR3Lower_d3cr_vosrdy (r : Regs) (a b c : Bool) (d : Nat)
    (e : Bool) : (writeCR3Lower r a b c d e).d3cr_vosrdy = r.d3cr_vosrdy := by
  unfold writeCR3Lower; split <;> rfl

/-- A CR3 lower-byte write never changes ACTVOSRDY. -/
@[simp] theorem writeCR3Lower_csr1_actvosrdy (r : Regs) (a b c : Bool)
    (d : Nat) (e : Bool) :
    (writeCR3Lower r a b c d e).csr1_actvosrdy = r.csr1_actvosrdy := by
  unfold writeCR3Lower; split <;> rfl

/-- A CR3 lower-byte write never changes ACTVOS. -/
@[simp] theorem writeCR3Lower_csr1_actvos (r : Regs) (a b c : Bool) (d : Nat)
    (e : Bool) : (writeCR3Lower r a b c d e).csr1_actvos = r.csr1_actvos := by
  unfold writeCR3Lower; split <;> rfl

/-- A CR3 lower-byte write never changes CR1.DBP. -/
@[simp] theorem writeCR3Lower_cr1_dbp (r : Regs) (a b c : Bool) (d : Nat)
    (e : Bool) : (writeCR3Lower r a b c d e).cr1_dbp = r.cr1_dbp := by
  unfold writeCR3Lower; split <;> rfl

/-- A CR3 lower-byte write never changes CR2.BREN. -/
@[simp] theorem writeCR3Lower_cr2_bren (r : Regs) (a b c : Bool) (d : Nat)
    (e : Bool) : (writeCR3Lower r a b c d e).cr2_bren = r.cr2_bren := by
  unfold writeCR3Lower; split <;> rfl

/-- A CR3 lower-byte write never changes CR2.BRRDY. -/
@[simp] theorem writeCR3Lower_cr2_brrdy (r : Regs) (a b c : Bool) (d : Nat)
    (e : Bool) : (writeCR3Lower r a b c d e).cr2_brrdy = r.cr2_brrdy := by
  unfold writeCR3Lower; split <;> rfl

/-- Every branch of step 1 is one CR3 read followed by one CR3 write of
some value computed from the selection and the read value. -/
theorem step1_shape (v : Variant) (p : Pwr) (r : Regs) :
    ∃ a b c d e, step1cr3 v p r =
      (writeCR3Lower r a b c d e,
       [Event.readCR3, Event.writeCR3 a b c d e]) := by
  cases hb : v.smps
  · exact ⟨r.cr3_sden, true, false, r.cr3_sdlevel, true,
      by simp [step1cr3, hb]⟩
  · cases hsc : p.supply_configuration
    · exact ⟨r.cr3_sden, r.cr3_ldoen, r.cr3_bypass, r.cr3_sdlevel,
        r.cr3_scuen, by simp [step1cr3, hb, hsc]⟩
    · exact ⟨false, true, r.cr3_bypass, r.cr3_sdlevel, r.cr3_scuen,
        by simp [step1cr3, hb, hsc]⟩
    · exact ⟨true, false, r.cr3_bypass, r.cr3_sdlevel, r.cr3_scuen,
        by simp [step1cr3, hb, hsc]⟩
    · exact ⟨true, true, r.cr3_bypass, 1, r.cr3_scuen,
        by simp [step1cr3, hb, hsc]⟩
    · exact ⟨true, true, r.cr3_bypass, 2, r.cr3_scuen,
        by simp [step1cr3, hb, hsc]⟩
    · exact ⟨false, false, true, r.cr3_sdlevel, r.cr3_scuen,
        by simp [step1cr3, hb, hsc]⟩

/-- `isScale0` holds only on Scale0. -/
theorem isScale0_eq {s : VoltageScale} (h : isScale0 s = true) :
    s = VoltageScale.Scale0 := by
  cases s <;> simp [isScale0] at h ⊢

/-- The overdrive path exists exactly on revision-V RM0433/RM0399. -/
theorem odPath_cases {v : Variant} (h : odPath v = true) :
    v.revision_v = true ∧
      (v.family = Family.RM0433 ∨ v.family = Family.RM0399) := by
  cases hf : v.family <;> cases hr : v.revision_v <;>
    simp_all [odPath]

/-- The second-transition path exists exactly on revision-V RM0468. -/
theorem sndPath_cases {v : Variant} (h : sndPath v = true) :
    v.revision_v = true ∧ v.family = Family.RM0468 := by
  cases hf : v.family <;> cases hr : v.revision_v <;>
    simp_all [sndPath]

/-- When the backup stage completes, it returns the scale it was handed, a
fresh singleton handle, the register state with DBP (and, if requested,
BREN) set, and the input trace extended by the backup events. -/
theorem backup_stage_ok (p : Pwr) (vos : VoltageScale) (r : Regs)
    (t : List Event) (h : (backup_stage p vos r t).isOk = true) :
    backup_stage p vos r t =
      Outcome.ok
        { vos := vos
          backup := some (BackupREC.new_singleton p.backup_regulator) }
        (backupRegs p.backup_regulator r)
        (t ++ backupSuffix p.backup_regulator) := by
  cases hbr : p.backup_regulator <;> cases hrdy : r.cr2_brrdy <;>
    simp_all [backup_stage, backupRegs, backupSuffix, Outcome.isOk]

/-- The backup stage never blocks when BRRDY is set (or the regulator was
not requested at all). -/
theorem backup_stage_not_blocked (p : Pwr) (vos : VoltageScale) (r : Regs)
    (t : List Event) (h : p.backup_regulator = true → r.cr2_brrdy = true) :
    (backup_stage p vos r t).isBlocked = false := by
  cases hbr : p.backup_regulator <;> cases hrdy : r.cr2_brrdy <;>
    simp_all [backup_stage, Outcome.isBlocked]

/-- A trace with no backup events has no BREN write and no BRRDY poll. -/
theorem noBackupEvt_any (l : List Event)
    (h : l.all noBackupEvt = true) :
    l.any isWriteBREN = false ∧ l.any isPollBRRDY = false := by
  induction l with
  | nil => simp
  | cons x xs ih =>
      simp only [List.all_cons, Bool.and_eq_true] at h
      obtain ⟨hx, hxs⟩ := h
      obtain ⟨h1, h2⟩ := ih hxs
      simp only [noBackupEvt, Bool.and_eq_true, Bool.not_eq_true'] at hx
      simp [List.any_cons, h1, h2, hx.1.2, hx.2]

/-- Every completed `freeze` ends by running the backup stage on the scale
`finalVos v p`, with a pre-backup trace containing no backup events and a
pre-backup register state whose CR2 bits are untouched. -/
theorem freeze_ok_spine (v : Variant) (p : Pwr) (r : Regs)
    (hok : (freeze v p r).isOk = true) :
    ∃ rp tp, freeze v p r = backup_stage p (finalVos v p) rp tp ∧
      tp.all noBackupEvt = true ∧
      rp.cr2_bren = r.cr2_bren ∧ rp.cr2_brrdy = r.cr2_brrdy := by
  obtain ⟨a, b, c, d, e, hs⟩ := step1_shape v p r
  cases hU : (v.smps &&
      !(verify_supply_configuration p.supply_configuration
        (writeCR3Lower r a b c d e)))
  case true => simp [freeze, hs, hU, Outcome.isOk] at hok
  case false =>
  cases hA : r.csr1_actvosrdy
  case false => simp [freeze, hs, hU, hA, Outcome.isOk] at hok
  case true =>
  rcases hvb : vosBits v.family (interVos p.target_vos) with _ | bts
  case none =>
    simp [freeze, hs, hU, hA, voltage_scaling_transition, hvb,
      Outcome.isOk] at hok
  case some =>
  cases hV : r.d3cr_vosrdy
  case false =>
    simp [freeze, hs, hU, hA, voltage_scaling_transition, hvb, hV,
      Outcome.isOk] at hok
  case true =>
  cases hOD : (odPath v && isScale0 p.target_vos)
  case true =>
    rw [Bool.and_eq_true] at hOD
    obtain ⟨hOD1, hOD2⟩ := hOD
    simp only [freeze, hs, voltage_scaling_transition, hvb, hU, hA, hV,
      hOD1, hOD2, finalVos, writeCR3Lower_csr1_actvosrdy,
      writeCR3Lower_d3cr_vosrdy, Bool.false_and, Bool.and_self,
      Bool.true_and, Bool.true_or, Bool.or_true, Bool.and_true,
      Bool.not_false, Bool.false_eq_true, if_false, if_true,
      Bool.true_eq_false, ite_false, ite_true]
    refine ⟨_, _, rfl, ?_, ?_, ?_⟩ <;> simp [noBackupEvt, isWriteDBP,
      isWriteBREN, isPollBRRDY, writeCR3Lower_cr2_bren,
      writeCR3Lower_cr2_brrdy]
  case false =>
  cases hSND : (sndPath v && isScale0 p.target_vos)
  case true =>
    rw [Bool.and_eq_true] at hSND
    obtain ⟨hSND1, hSND2⟩ := hSND
    obtain ⟨hrv, hfam⟩ := sndPath_cases hSND1
    have htv := isScale0_eq hSND2
    have hodf : odPath v = false := by simp [odPath, hfam]
    by_cases hEq : (0 : Nat) = r.csr1_actvos
    · simp only [freeze, hs, htv, hfam, voltage_scaling_transition,
        interVos, isScale0, vosBits, hU, hA, hV, hodf, hEq, finalVos,
        hSND1, writeCR3Lower_csr1_actvosrdy, writeCR3Lower_d3cr_vosrdy,
        writeCR3Lower_csr1_actvos, Bool.false_and, Bool.and_self,
        Bool.true_and, Bool.true_or, Bool.or_true, Bool.and_true,
        Bool.false_or, Bool.not_false, Bool.false_eq_true, if_false,
        if_true, Bool.true_eq_false, ite_false, ite_true, and_self,
        and_true, true_and, if_pos, not_false_eq_true]
      refine ⟨_, _, rfl, ?_, ?_, ?_⟩ <;> simp [noBackupEvt, isWriteDBP,
        isWriteBREN, isPollBRRDY, writeCR3Lower_cr2_bren,
        writeCR3Lower_cr2_brrdy]
    · simp [freeze, hs, htv, hfam, voltage_scaling_transition, interVos,
        isScale0, vosBits, hU, hA, hV, hodf, hSND1, hEq,
        Outcome.isOk] at hok
  case false =>
    have hF : ((odPath v || sndPath v) && isScale0 p.target_vos) = false := by
      cases h1 : odPath v <;> cases h2 : sndPath v <;>
        cases h3 : isScale0 p.target_vos <;> simp_all
    simp only [freeze, hs, voltage_scaling_transition, hvb, hU, hA, hV,
      hOD, hSND, finalVos, hF, writeCR3Lower_csr1_actvosrdy,
      writeCR3Lower_d3cr_vosrdy, Bool.false_and, Bool.and_self,
      Bool.true_and, Bool.not_false, Bool.false_eq_true, if_false, if_true,
      Bool.true_eq_false, ite_false, ite_true]
    refine ⟨_, _, rfl, ?_, ?_, ?_⟩ <;> simp [noBackupEvt, isWriteDBP,
      isWriteBREN, isPollBRRDY, writeCR3Lower_cr2_bren,
      writeCR3Lower_cr2_brrdy]

/-- For a legal target the final scale equals the requested one. -/
theorem finalVos_eq_target (v : Variant) (p : Pwr)
    (hleg : LegalTarget v p.target_vos) : finalVos v p = p.target_vos := by
  cases htv : p.target_vos
  case Scale0 =>
    obtain ⟨hrv, hfam⟩ := hleg htv
    cases hf : v.family
    case RM0433 => simp [finalVos, odPath, htv, isScale0, hf, hrv]
    case RM0399 => simp [finalVos, odPath, htv, isScale0, hf, hrv]
    case RM0455 => exact absurd hf hfam
    case RM0468 => simp [finalVos, odPath, sndPath, htv, isScale0, hf, hrv]
  case Scale1 => simp [finalVos, htv, isScale0, interVos]
  case Scale2 => simp [finalVos, htv, isScale0, interVos]
  case Scale3 => simp [finalVos, htv, isScale0, interVos]

/-- Claim C2: for every supported hardware variant and every legal requested
voltage scale, a `freeze` that runs to completion returns a
`PowerConfiguration` whose achieved scale equals the requested tier (Scale0
exactly when the overdrive / second-transition path completed, and otherwise
the directly written tier). -/
theorem freeze_achieves_requested_scale (v : Variant) (p : Pwr) (r : Regs)
    (hleg : LegalTarget v p.target_vos)
    (hok : (freeze v p r).isOk = true) :
    (freeze v p r).cfgVos = some p.target_vos := by
  obtain ⟨rp, tp, heq, -, -, -⟩ := freeze_ok_spine v p r hok
  rw [heq] at hok ⊢
  rw [backup_stage_ok _ _ _ _ hok]
  simp [Outcome.cfgVos, finalVos_eq_target v p hleg]

/-- Witness for C2: a concrete completing freeze on a revision-V RM0399
part with the default builder achieves the requested Scale1. -/
theorem freeze_achieves_requested_scale_witness :
    (freeze variantRM0399smps constrain regsReady).cfgVos =
      some constrain.target_vos :=
  freeze_achieves_requested_scale variantRM0399smps constrain regsReady
    (by decide) (by decide)

/-- Claim C6: the backup-regulator handle of a completed `freeze` can be
taken exactly once: the first `backup()` call yields the handle, and every
subsequent call yields nothing (the state after the second call equals the
state after the first, so all later calls also yield nothing). -/
theorem backup_handle_taken_once (v : Variant) (p : Pwr) (r : Regs)
    (hok : (freeze v p r).isOk = true) :
    ∃ cfg, (freeze v p r).cfgOut = some cfg ∧
      (cfg.take_backup).1.isSome = true ∧
      ((cfg.take_backup).2).take_backup = (none, (cfg.take_backup).2) := by
  obtain ⟨rp, tp, heq, -, -, -⟩ := freeze_ok_spine v p r hok
  rw [heq] at hok ⊢
  rw [backup_stage_ok _ _ _ _ hok]
  exact ⟨_, rfl, by simp [PowerConfiguration.take_backup],
    by simp [PowerConfiguration.take_backup]⟩

/-- Witness for C6 at a concrete completing freeze. -/
theorem backup_handle_taken_once_witness :
    ∃ cfg, (freeze variantRM0433 constrain regsReady).cfgOut = some cfg ∧
      (cfg.take_backup).1.isSome = true ∧
      ((cfg.take_backup).2).take_backup = (none, (cfg.take_backup).2) :=
  backup_handle_taken_once variantRM0433 constrain regsReady (by decide)

/-- Claim C7: every completed `freeze` writes CR1.DBP and immediately polls
it before any backup-regulator access; it writes CR2.BREN and polls
CR2.BRRDY exactly when the builder requested the backup regulator, and when
not requested CR2.BREN is left untouched. -/
theorem freeze_backup_domain_protocol (v : Variant) (p : Pwr) (r : Regs)
    (hok : (freeze v p r).isOk = true) :
    (∃ t1 t2, (freeze v p r).traceOut =
        t1 ++ [Event.writeDBP, Event.pollDBP] ++ t2 ∧
        t1.any isWriteBREN = false) ∧
    (freeze v p r).traceOut.any isWriteBREN = p.backup_regulator ∧
    (freeze v p r).traceOut.any isPollBRRDY = p.backup_regulator ∧
    (freeze v p r).regsOut.cr1_dbp = true ∧
    (p.backup_regulator = false →
      (freeze v p r).regsOut.cr2_bren = r.cr2_bren) := by
  obtain ⟨rp, tp, heq, hall, hbren, hbrrdy⟩ := freeze_ok_spine v p r hok
  rw [heq] at hok ⊢
  rw [backup_stage_ok _ _ _ _ hok]
  obtain ⟨hW, hP⟩ := noBackupEvt_any tp hall
  cases hbr : p.backup_regulator
  · refine ⟨⟨tp, [], by simp [Outcome.traceOut, backupSuffix], hW⟩,
      ?_, ?_, ?_, ?_⟩ <;>
      simp [Outcome.traceOut, Outcome.regsOut, backupSuffix, backupRegs,
        List.any_append, hW, hP, isWriteBREN, isPollBRRDY, hbren]
  · refine ⟨⟨tp, [Event.writeBREN, Event.pollBRRDY],
      by simp [Outcome.traceOut, backupSuffix], hW⟩, ?_, ?_, ?_, ?_⟩ <;>
      simp [Outcome.traceOut, Outcome.regsOut, backupSuffix, backupRegs,
        List.any_append, hW, hP, isWriteBREN, isPollBRRDY, hbren]

/-- Witness for C7: a concrete completing freeze that requests the backup
regulator. -/
theorem freeze_backup_domain_protocol_witness :
    (∃ t1 t2, (freeze variantRM0399smps pwrBackup regsReady).traceOut =
        t1 ++ [Event.writeDBP, Event.pollDBP] ++ t2 ∧
        t1.any isWriteBREN = false) ∧
    (freeze variantRM0399smps pwrBackup regsReady).traceOut.any isWriteBREN =
      pwrBackup.backup_regulator ∧
    (freeze variantRM0399smps pwrBackup regsReady).traceOut.any isPollBRRDY =
      pwrBackup.backup_regulator ∧
    (freeze variantRM0399smps pwrBackup regsReady).regsOut.cr1_dbp = true ∧
    (pwrBackup.backup_regulator = false →
      (freeze variantRM0399smps pwrBackup regsReady).regsOut.cr2_bren =
        regsReady.cr2_bren) :=
  freeze_backup_domain_protocol variantRM0399smps pwrBackup regsReady
    (by decide)

/-- On the overdrive path (revision-V RM0433/RM0399, target Scale0) a
completed freeze runs the backup stage after the exact pre-backup trace:
CR3 read-modify-write, ACTVOSRDY poll, Scale1 write (encoding 0b11), VOSRDY
poll, SYSCFG clock enable, overdrive enable, VOSRDY poll. -/
theorem freeze_od_form (v : Variant) (p : Pwr) (r : Regs)
    (hod : odPath v = true) (ht : p.target_vos = VoltageScale.Scale0)
    (hok : (freeze v p r).isOk = true) :
    ∃ a b c d e rp, freeze v p r = backup_stage p VoltageScale.Scale0 rp
      [Event.readCR3, Event.writeCR3 a b c d e, Event.pollActvosrdy,
       Event.writeVOS 3, Event.pollVosrdy, Event.writeSYSCFGEN,
       Event.writeODEN, Event.pollVosrdy] := by
  obtain ⟨a, b, c, d, e, hs⟩ := step1_shape v p r
  obtain ⟨hrv, hfam⟩ := odPath_cases hod
  cases hU : (v.smps &&
      !(verify_supply_configuration p.supply_configuration
        (writeCR3Lower r a b c d e)))
  case true => simp [freeze, hs, hU, Outcome.isOk] at hok
  case false =>
  cases hA : r.csr1_actvosrdy
  case false => simp [freeze, hs, hU, hA, Outcome.isOk] at hok
  case true =>
  cases hV : r.d3cr_vosrdy
  case false =>
    rcases hfam with hf | hf <;>
      simp [freeze, hs, ht, hf, voltage_scaling_transition, interVos,
        vosBits, hU, hA, hV, Outcome.isOk] at hok
  case true =>
    suffices h : ∃ rp, freeze v p r = backup_stage p VoltageScale.Scale0 rp
        [Event.readCR3, Event.writeCR3 a b c d e, Event.pollActvosrdy,
         Event.writeVOS 3, Event.pollVosrdy, Event.writeSYSCFGEN,
         Event.writeODEN, Event.pollVosrdy] by
      obtain ⟨rp, h⟩ := h
      exact ⟨a, b, c, d, e, rp, h⟩
    rcases hfam with hf | hf <;>
    · simp [freeze, hs, ht, hf, voltage_scaling_transition, interVos,
        vosBits, isScale0, hU, hA, hV, hod]
      exact ⟨_, rfl⟩

/-- On the second-transition path (revision-V RM0468, target Scale0) a
completed freeze runs the backup stage after the exact pre-backup trace:
CR3 read-modify-write, ACTVOSRDY poll, Scale1 write (encoding 0b11), VOSRDY
poll, Scale0 write (encoding 0b00), VOSRDY poll, ACTVOS-equality poll,
ACTVOSRDY poll. -/
theorem freeze_snd_form (v : Variant) (p : Pwr) (r : Regs)
    (hsnd : sndPath v = true) (ht : p.target_vos = VoltageScale.Scale0)
    (hok : (freeze v p r).isOk = true) :
    ∃ a b c d e rp, freeze v p r = backup_stage p VoltageScale.Scale0 rp
      [Event.readCR3, Event.writeCR3 a b c d e, Event.pollActvosrdy,
       Event.writeVOS 3, Event.pollVosrdy, Event.writeVOS 0,
       Event.pollVosrdy, Event.pollActvosEq, Event.pollActvosrdy] := by
  obtain ⟨a, b, c, d, e, hs⟩ := step1_shape v p r
  obtain ⟨hrv, hfam⟩ := sndPath_cases hsnd
  have hodf : odPath v = false := by simp [odPath, hfam]
  cases hU : (v.smps &&
      !(verify_supply_configuration p.supply_configuration
        (writeCR3Lower r a b c d e)))
  case true => simp [freeze, hs, hU, Outcome.isOk] at hok
  case false =>
  cases hA : r.csr1_actvosrdy
  case false => simp [freeze, hs, hU, hA, Outcome.isOk] at hok
  case true =>
  cases hV : r.d3cr_vosrdy
  case false =>
    simp [freeze, hs, ht, hfam, voltage_scaling_transition, interVos,
      vosBits, hU, hA, hV, Outcome.isOk] at hok
  case true =>
  by_cases hEq : (0 : Nat) = r.csr1_actvos
  · suffices h : ∃ rp, freeze v p r = backup_stage p VoltageScale.Scale0 rp
        [Event.readCR3, Event.writeCR3 a b c d e, Event.pollActvosrdy,
         Event.writeVOS 3, Event.pollVosrdy, Event.writeVOS 0,
         Event.pollVosrdy, Event.pollActvosEq, Event.pollActvosrdy] by
      obtain ⟨rp, h⟩ := h
      exact ⟨a, b, c, d, e, rp, h⟩
    simp [freeze, hs, ht, hfam, voltage_scaling_transition, interVos,
      vosBits, isScale0, hU, hA, hV, hodf, hsnd, hEq]
    exact ⟨_, rfl⟩
  · simp [freeze, hs, ht, hfam, voltage_scaling_transition, interVos,
      vosBits, isScale0, hU, hA, hV, hodf, hsnd, hEq, Outcome.isOk] at hok

/-- Claim C5: whenever the requested tier is Scale0 on a variant lacking
direct entry, a completed freeze issues the Scale1 register write strictly
before the step that finally reaches Scale0 (overdrive enable on
RM0433/RM0399, second Scale0-encoded VOS write on RM0468), and no Scale0
encoding is written before that Scale1 write. -/
theorem freeze_two_hop_order (v : Variant) (p : Pwr) (r : Regs)
    (hv : (odPath v || sndPath v) = true)
    (ht : p.target_vos = VoltageScale.Scale0)
    (hok : (freeze v p r).isOk = true) :
    ∃ ta tb tc, (freeze v p r).traceOut =
        ta ++ Event.writeVOS 3 :: tb ++ scale0_step v.family :: tc ∧
      ta.all (fun e => !scale0VosWrite v.family e) = true := by
  rw [Bool.or_eq_true] at hv
  cases hv with
  | inl hod =>
    obtain ⟨hrv, hfam⟩ := odPath_cases hod
    obtain ⟨a, b, c, d, e, rp, heq⟩ := freeze_od_form v p r hod ht hok
    rw [heq] at hok ⊢
    rw [backup_stage_ok _ _ _ _ hok]
    refine ⟨[Event.readCR3, Event.writeCR3 a b c d e, Event.pollActvosrdy],
      [Event.pollVosrdy, Event.writeSYSCFGEN],
      Event.pollVosrdy :: backupSuffix p.backup_regulator, ?_, ?_⟩
    · rcases hfam with hf | hf <;> simp [Outcome.traceOut, scale0_step, hf]
    · rcases hfam with hf | hf <;>
        simp [scale0VosWrite, vosBits, hf, isVosWrite]
  | inr hsnd =>
    obtain ⟨hrv, hfam⟩ := sndPath_cases hsnd
    obtain ⟨a, b, c, d, e, rp, heq⟩ := freeze_snd_form v p r hsnd ht hok
    rw [heq] at hok ⊢
    rw [backup_stage_ok _ _ _ _ hok]
    refine ⟨[Event.readCR3, Event.writeCR3 a b c d e, Event.pollActvosrdy],
      [Event.pollVosrdy],
      Event.pollVosrdy :: Event.pollActvosEq :: Event.pollActvosrdy ::
        backupSuffix p.backup_regulator, ?_, ?_⟩
    · simp [Outcome.traceOut, scale0_step, hfam]
    · simp [scale0VosWrite, vosBits, hfam, isVosWrite]

/-- Witness for C5: a concrete completing Scale0 freeze on a revision-V
RM0433 part. -/
theorem freeze_two_hop_order_witness :
    ∃ ta tb tc, (freeze variantRM0433 pwrVos0 regsReady).traceOut =
        ta ++ Event.writeVOS 3 :: tb ++
          scale0_step variantRM0433.family :: tc ∧
      ta.all (fun e => !scale0VosWrite variantRM0433.family e) = true :=
  freeze_two_hop_order variantRM0433 pwrVos0 regsReady (by decide)
    (by decide) (by decide)

/-- Claim C8: a busy-wait loop whose status bit is already set exits within
one polling iteration, and under full hardware readiness `freeze` never
blocks (it is a total function of its inputs). -/
theorem busy_polls_single_iteration :
    (∀ n, 1 ≤ n → busy_wait n true = some 1) ∧
    (∀ (v : Variant) (p : Pwr) (r : Regs), hwReady v p r →
      (freeze v p r).isBlocked = false) := by
  constructor
  · intro n hn
    cases n with
    | zero => exact absurd hn (by simp)
    | succ m => simp [busy_wait]
  · intro v p r hw
    obtain ⟨hV, hA, hB, hact⟩ := hw
    obtain ⟨a, b, c, d, e, hs⟩ := step1_shape v p r
    cases hU : (v.smps &&
        !(verify_supply_configuration p.supply_configuration
          (writeCR3Lower r a b c d e)))
    case true => simp [freeze, hs, hU, Outcome.isBlocked]
    case false =>
    rcases hvb : vosBits v.family (interVos p.target_vos) with _ | bts
    · simp [freeze, hs, hU, hA, voltage_scaling_transition, hvb,
        Outcome.isBlocked]
    · cases hOD : (odPath v && isScale0 p.target_vos)
      case true =>
        simp only [freeze, hs, voltage_scaling_transition, hvb, hU, hA, hV,
          hOD, writeCR3Lower_csr1_actvosrdy, writeCR3Lower_d3cr_vosrdy,
          Bool.false_eq_true, Bool.true_eq_false, if_false, if_true,
          ite_false, ite_true]
        exact backup_stage_not_blocked p _ _ _ (fun _ => by simp [hB])
      case false =>
      cases hSND : (sndPath v && isScale0 p.target_vos)
      case true =>
        rw [Bool.and_eq_true] at hSND
        obtain ⟨hSND1, hSND2⟩ := hSND
        obtain ⟨hrv, hfam⟩ := sndPath_cases hSND1
        have htv := isScale0_eq hSND2
        have hodf : odPath v = false := by simp [odPath, hfam]
        have h0 : r.csr1_actvos = 0 := hact hSND1 htv
        simp only [freeze, hs, htv, hfam, voltage_scaling_transition,
          interVos, isScale0, vosBits, hU, hA, hV, hodf, hSND1, h0,
          writeCR3Lower_csr1_actvosrdy, writeCR3Lower_d3cr_vosrdy,
          writeCR3Lower_csr1_actvos, Bool.false_eq_true, Bool.true_eq_false,
          if_false, if_true, ite_false, ite_true, Bool.and_self,
          Bool.true_and, Bool.and_true, and_self, if_pos, true_and]
        exact backup_stage_not_blocked p _ _ _ (fun _ => by simp [hB])
      case false =>
        simp only [freeze, hs, voltage_scaling_transition, hvb, hU, hA, hV,
          hOD, hSND, writeCR3Lower_csr1_actvosrdy,
          writeCR3Lower_d3cr_vosrdy, Bool.false_eq_true, Bool.true_eq_false,
          if_false, if_true, ite_false, ite_true]
        exact backup_stage_not_blocked p _ _ _ (fun _ => by simp [hB])

/-- Witness for C8 at fuel 3 and a concrete ready freeze on a revision-V
RM0468 part targeting Scale0. -/
theorem busy_polls_single_iteration_witness :
    busy_wait 3 true = some 1 ∧
      (freeze variantRM0468smps pwrVos0 regsReady).isBlocked = false :=
  ⟨busy_polls_single_iteration.1 3 (by decide),
   busy_polls_single_iteration.2 variantRM0468smps pwrVos0 regsReady
     (by decide)⟩

/-- Claim C9: a builder fresh from `constrain` carries target Scale1, the
default supply configuration and a disabled backup regulator; freezing it
on any variant whose polls complete succeeds with achieved scale Scale1 and
never writes the backup-regulator enable bit. -/
theorem constrain_defaults_freeze :
    constrain.target_vos = VoltageScale.Scale1 ∧
    constrain.supply_configuration = SupplyConfiguration.Default ∧
    constrain.backup_regulator = false ∧
    ∀ (v : Variant) (r : Regs), pollsReady r →
      (freeze v constrain r).isOk = true ∧
      (freeze v constrain r).cfgVos = some VoltageScale.Scale1 ∧
      (freeze v constrain r).traceOut.any isWriteBREN = false ∧
      (freeze v constrain r).regsOut.cr2_bren = r.cr2_bren := by
  refine ⟨rfl, rfl, rfl, ?_⟩
  intro v r hpr
  obtain ⟨hV, hA⟩ := hpr
  obtain ⟨a, b, c, d, e, hs⟩ := step1_shape v constrain r
  have hc1 : constrain.supply_configuration = SupplyConfiguration.Default :=
    rfl
  have hc2 : constrain.target_vos = VoltageScale.Scale1 := rfl
  have hc3 : constrain.backup_regulator = false := rfl
  have hU : (v.smps &&
      !(verify_supply_configuration SupplyConfiguration.Default
        (writeCR3Lower r a b c d e))) = false := by
    simp [verify_supply_configuration]
  cases hf : v.family <;>
    simp [freeze, hs, hc1, hc2, hc3, hU, hA, hV,
      voltage_scaling_transition, interVos, vosBits, isScale0, hf,
      backup_stage, Outcome.isOk, Outcome.cfgVos, Outcome.traceOut,
      Outcome.regsOut, isWriteBREN]

/-- Witness for C9 at a concrete variant and ready register file. -/
theorem constrain_defaults_freeze_witness :
    (freeze variantRM0433 constrain regsLockedMismatch).isOk = true ∧
    (freeze variantRM0433 constrain regsLockedMismatch).cfgVos =
      some VoltageScale.Scale1 ∧
    (freeze variantRM0433 constrain regsLockedMismatch).traceOut.any
      isWriteBREN = false ∧
    (freeze variantRM0433 constrain regsLockedMismatch).regsOut.cr2_bren =
      regsLockedMismatch.cr2_bren :=
  constrain_defaults_freeze.2.2.2 variantRM0433 regsLockedMismatch
    (by decide)

/-- The backup stage never hits an `unimplemented!()` panic. -/
theorem backup_stage_no_unimpl (p : Pwr) (vos : VoltageScale) (r : Regs)
    (t : List Event) : (backup_stage p vos r t).isUnimplPanic = false := by
  cases hbr : p.backup_regulator <;> cases hrdy : r.cr2_brrdy <;>
    simp_all [backup_stage, Outcome.isUnimplPanic]

/-- Claim C10: on the RM0433/RM0399 families `freeze` never reaches the
`unimplemented!()` arm of the tier-to-bitpattern match: a Scale0 target is
first mapped to Scale1, the overdrive path never re-calls the transition
function, and the single transition `freeze` issues always has a defined
encoding. -/
theorem freeze_never_unimplemented_vos (v : Variant) (p : Pwr) (r : Regs)
    (hfam : v.family = Family.RM0433 ∨ v.family = Family.RM0399) :
    (freeze v p r).isUnimplPanic = false ∧
    (vosBits v.family (interVos p.target_vos)).isSome = true := by
  have hvb : ∃ bts, vosBits v.family (interVos p.target_vos) = some bts := by
    rcases hfam with hf | hf <;> cases htv : p.target_vos <;>
      simp [interVos, vosBits, hf]
  obtain ⟨bts, hvb⟩ := hvb
  refine ⟨?_, by simp [hvb]⟩
  obtain ⟨a, b, c, d, e, hs⟩ := step1_shape v p r
  have hsndf : sndPath v = false := by
    rcases hfam with hf | hf <;> simp [sndPath, hf]
  cases hU : (v.smps &&
      !(verify_supply_configuration p.supply_configuration
        (writeCR3Lower r a b c d e)))
  case true => simp [freeze, hs, hU, Outcome.isUnimplPanic]
  case false =>
  cases hA : r.csr1_actvosrdy
  case false => simp [freeze, hs, hU, hA, Outcome.isUnimplPanic]
  case true =>
  cases hV : r.d3cr_vosrdy
  case false =>
    simp [freeze, hs, hU, hA, hV, voltage_scaling_transition, hvb,
      Outcome.isUnimplPanic]
  case true =>
  cases hOD : (odPath v && isScale0 p.target_vos)
  case true =>
    simp only [freeze, hs, voltage_scaling_transition, hvb, hU, hA, hV,
      hOD, writeCR3Lower_csr1_actvosrdy, writeCR3Lower_d3cr_vosrdy,
      Bool.false_eq_true, Bool.true_eq_false, if_false, if_true,
      ite_false, ite_true]
    exact backup_stage_no_unimpl p _ _ _
  case false =>
    simp only [freeze, hs, voltage_scaling_transition, hvb, hU, hA, hV,
      hOD, hsndf, writeCR3Lower_csr1_actvosrdy, writeCR3Lower_d3cr_vosrdy,
      Bool.false_and, Bool.false_eq_true, Bool.true_eq_false,
      if_false, if_true, ite_false, ite_true]
    exact backup_stage_no_unimpl p _ _ _

/-- Witness for C10 at a concrete RM0433 part with a Scale0 target. -/
theorem freeze_never_unimplemented_vos_witness :
    (freeze variantRM0433 pwrVos0 regsReady).isUnimplPanic = false ∧
    (vosBits variantRM0433.family (interVos pwrVos0.target_vos)).isSome =
      true :=
  freeze_never_unimplemented_vos variantRM0433 pwrVos0 regsReady
    (by decide)

/-- Claim C1 (code bug): on an SMPS part requesting `SMPSFeedsIntoLDO1V8`,
the step-1 write puts SDEN=1, LDOEN=1, SDLEVEL=1 into CR3 and the register
file reads back exactly those bits; `verify_supply_configuration`
nevertheless panics, because its arm for this mode asserts LDOEN clear
while the write set it — contradicting its own description of verifying
that CR3 reads as written. -/
theorem freeze_faithful_feeds_ldo_panics :
    (step1cr3 variantRM0399smps pwrFeeds1V8 regsReady).1.cr3_sden = true ∧
    (step1cr3 variantRM0399smps pwrFeeds1V8 regsReady).1.cr3_ldoen = true ∧
    (step1cr3 variantRM0399smps pwrFeeds1V8 regsReady).1.cr3_sdlevel = 1 ∧
    (freeze variantRM0399smps pwrFeeds1V8 regsReady).isMismatchPanic =
      true := by decide

/-- Claim C3 (code bug): on an SMPS part requesting `SMPSFeedsIntoLDO1V8`
against a register file locked at SDEN=1, LDOEN=0, SDLEVEL=1, the readback
differs from the requested pattern (the step-1 bus write carries LDOEN=1
but the readback shows LDOEN=0), yet `freeze` does not abort: it passes
verification, proceeds to a voltage-scale register write and completes. -/
theorem freeze_mismatch_not_aborted :
    (step1cr3 variantRM0399smps pwrFeeds1V8 regsLockedMismatch).2 =
      [Event.readCR3, Event.writeCR3 true true false 1 false] ∧
    (step1cr3 variantRM0399smps pwrFeeds1V8
      regsLockedMismatch).1.cr3_ldoen = false ∧
    (freeze variantRM0399smps pwrFeeds1V8 regsLockedMismatch).isOk = true ∧
    (freeze variantRM0399smps pwrFeeds1V8
      regsLockedMismatch).traceOut.any isAnyVosWrite = true := by decide

/-- Counterexample to claim C4 as stated: committing the default supply
configuration on a converter-integrated variant does access the lower byte
of CR3 in step 1 — the `modify` call performs one CR3 read and one CR3
write (of the bits just read), visible as the first two trace events. -/
theorem freeze_default_touches_cr3 :
    (freeze variantRM0399smps constrain regsReady).traceOut.take 2 =
      [Event.readCR3, Event.writeCR3 false false false 0 false] ∧
    ((freeze variantRM0399smps constrain
      regsReady).traceOut.filter isCR3Access).length = 2 := by decide

/-- Claim C4 as amended: with the default supply configuration on a
converter-integrated variant, step 1 performs a read-modify-write that
writes back exactly the bits it read, leaving every lower-byte field of
CR3 with its prior value, and the verify step checks nothing (it returns
`true` for every readback state). -/
theorem freeze_default_preserves_cr3 (v : Variant) (p : Pwr) (r : Regs)
    (hsm : v.smps = true)
    (hd : p.supply_configuration = SupplyConfiguration.Default) :
    (step1cr3 v p r).1.cr3_sden = r.cr3_sden ∧
    (step1cr3 v p r).1.cr3_ldoen = r.cr3_ldoen ∧
    (step1cr3 v p r).1.cr3_bypass = r.cr3_bypass ∧
    (step1cr3 v p r).1.cr3_sdlevel = r.cr3_sdlevel ∧
    (step1cr3 v p r).1.cr3_scuen = r.cr3_scuen ∧
    (step1cr3 v p r).2 =
      [Event.readCR3, Event.writeCR3 r.cr3_sden r.cr3_ldoen r.cr3_bypass
        r.cr3_sdlevel r.cr3_scuen] ∧
    verify_supply_configuration p.supply_configuration r = true := by
  by_cases hl : r.cr3_locked = true <;>
    simp [step1cr3, hsm, hd, writeCR3Lower, hl, verify_supply_configuration]

/-- Witness for the amended C4 at a concrete SMPS variant and register
state. -/
theorem freeze_default_preserves_cr3_witness :
    (step1cr3 variantRM0468smps constrain regsLockedMismatch).1.cr3_sden =
      regsLockedMismatch.cr3_sden ∧
    (step1cr3 variantRM0468smps constrain regsLockedMismatch).1.cr3_ldoen =
      regsLockedMismatch.cr3_ldoen ∧
    (step1cr3 variantRM0468smps constrain
      regsLockedMismatch).1.cr3_bypass = regsLockedMismatch.cr3_bypass ∧
    (step1cr3 variantRM0468smps constrain
      regsLockedMismatch).1.cr3_sdlevel = regsLockedMismatch.cr3_sdlevel ∧
    (step1cr3 variantRM0468smps constrain
      regsLockedMismatch).1.cr3_scuen = regsLockedMismatch.cr3_scuen ∧
    (step1cr3 variantRM0468smps constrain regsLockedMismatch).2 =
      [Event.readCR3, Event.writeCR3 regsLockedMismatch.cr3_sden
        regsLockedMismatch.cr3_ldoen regsLockedMismatch.cr3_bypass
        regsLockedMismatch.cr3_sdlevel regsLockedMismatch.cr3_scuen] ∧
    verify_supply_configuration constrain.supply_configuration
      regsLockedMismatch = true :=
  freeze_default_preserves_cr3 variantRM0468smps constrain
    regsLockedMismatch (by decide) (by decide)
